import Mathlib

/-!
# Verification of the Gaspar outreach/booking simulation engine

A shallow embedding, in Lean 4, of the core pure logic of the Gaspar demo
application (repository `francobray/gaspar`):

* the category/urgency classifier (`src/utils/googleMaps.ts`, `analyzeProblem`),
* the outreach simulator (`src/utils/simulator.ts`, `simulateOutreach`),
* the booking simulator (`src/utils/apiClient.ts`, `simulateChannel` /
  `simulateBooking`),
* the Thumbtack mock vendor generator (`src/utils/thumbtackMock.ts`).

Modelling conventions used throughout, stated once here:

* `Math.random()` draws are passed in explicitly as "environment" functions, so
  every definition is a deterministic function of its inputs plus the recorded
  random draws.  A probability comparison `Math.random() < p` is modelled as a
  comparison of a natural-number draw (in percent) against `p` scaled by 100,
  which has the same support of outcomes.
* Wall-clock readings (`new Date().toISOString()`) are likewise passed in as
  string-valued environment functions; no claim depends on their values.
* JavaScript floating-point quantities that no claim touches (vendor `rating`
  and `distance`) are carried as natural numbers in tenths.
* In-place mutation (the vendor record, the growing logs) becomes explicit
  state passing; the successive values assigned to a mutated field are
  recorded as an explicit event list where a claim refers to them.
-/

set_option autoImplicit false

namespace Gaspar

/-! ## String primitives

JavaScript's `String.prototype.includes`, first-occurrence `String.prototype.replace`
with a string pattern, and `toLowerCase`, modelled on the character lists
underlying Lean strings so that everything evaluates by `decide`/`rfl`. -/

/-- Boolean prefix test on character lists (`needle` is a prefix of `haystack`). -/
def isPrefixCL : List Char → List Char → Bool
  | [], _ => true
  | _ :: _, [] => false
  | a :: as, b :: bs => a == b && isPrefixCL as bs

/-- Substring containment on character lists: JavaScript `haystack.includes(needle)`. -/
def containsCL (needle : List Char) : List Char → Bool
  | [] => isPrefixCL needle []
  | c :: t => isPrefixCL needle (c :: t) || containsCL needle t

/-- JavaScript `haystack.includes(needle)` on strings. -/
def containsSubstring (haystack needle : String) : Bool :=
  containsCL needle.data haystack.data

/-- First-occurrence replacement on character lists.  JavaScript
`s.replace(needle, repl)` with a string `needle` replaces only the first
occurrence (all needles used in this code base are non-empty). -/
def replaceFirstCL (needle repl : List Char) : List Char → List Char
  | [] => []
  | c :: t =>
    if isPrefixCL needle (c :: t) then repl ++ (c :: t).drop needle.length
    else c :: replaceFirstCL needle repl t

/-- JavaScript `s.replace(needle, repl)` (string pattern: first occurrence only). -/
def replaceFirst (s needle repl : String) : String :=
  ⟨replaceFirstCL needle.data repl.data s.data⟩

/-- JavaScript `s.toLowerCase()` (the source only ever lowercases ASCII text). -/
def lowerStr (s : String) : String :=
  ⟨s.data.map Char.toLower⟩

/-! ## Data model (`src/types.ts`) -/

/-- `ProblemSummary.category` (`src/types.ts:4`). -/
inductive Category
  | hvac | plumber | electrician | roofer | appliance | pest | general
deriving DecidableEq

/-- `ProblemSummary.urgency` (`src/types.ts:5`). -/
inductive Urgency
  | low | medium | high | emergency
deriving DecidableEq

/-- The category value as it appears as an object key / string in the source. -/
def categoryKey : Category → String
  | .hvac => "hvac"
  | .plumber => "plumber"
  | .electrician => "electrician"
  | .roofer => "roofer"
  | .appliance => "appliance"
  | .pest => "pest"
  | .general => "general"

/-- `ProblemSummary` (`src/types.ts:1-8`). -/
structure ProblemSummary where
  transcript : String
  summary : String
  category : Category
  urgency : Urgency
  symptoms : List String
  modelSerial : Option String
deriving DecidableEq

/-- `OutreachAttempt.channel` (`src/types.ts:31`). -/
inductive OutreachChannel
  | sms | whatsapp | phone | email
deriving DecidableEq

/-- `OutreachAttempt.status` (`src/types.ts:33`). -/
inductive AttemptStatus
  | sent | delivered | replied | failed
deriving DecidableEq

/-- `OutreachAttempt` (`src/types.ts:30-36`).  The `status` field holds the
final value of the in-place mutated JavaScript object; the successive values it
takes during a run are recorded separately as `OutreachEvent`s. -/
structure OutreachAttempt where
  channel : OutreachChannel
  timestamp : String
  status : AttemptStatus
  message : Option String
  response : Option String
deriving DecidableEq

/-- `VendorData.outreachStatus` (`src/types.ts:25`). -/
inductive OutreachStatus
  | pending | inProgress | completed | failed
deriving DecidableEq

/-- `VendorData.source` (`src/types.ts:27`). -/
inductive VendorSource
  | google | thumbtack | demo
deriving DecidableEq

/-- `VendorData` (`src/types.ts:10-28`).  `rating` and `distance` are
floating-point in the source and carried here in tenths; the optional
`hasSms?: boolean` is a plain `Bool` because every use site treats
`undefined` as `false`. -/
structure VendorData where
  id : String
  name : String
  rating : Nat
  reviewCount : Nat
  phone : String
  website : Option String
  address : String
  distance : Nat
  category : String
  hasWebChat : Bool
  hasWhatsApp : Bool
  hasSms : Bool
  eta : Option String
  serviceFee : Option Nat
  outreachStatus : OutreachStatus
  outreachLog : List OutreachAttempt
  source : Option VendorSource
deriving DecidableEq

/-- `BookingResult.status` (`src/types.ts:39`). -/
inductive BookingStatus
  | confirmed | tentative | failed
deriving DecidableEq

/-- The four booking channels `simulateBooking` actually works with
(`src/utils/apiClient.ts:310`). -/
inductive BookingChannel
  | phone | web_chat | whatsapp | sms
deriving DecidableEq

/-- The channels *declared* for `BookingResult.channel` in the type definition
(`src/types.ts:40`): `'phone' | 'web_chat' | 'whatsapp'` — note the absence of
`sms`. -/
def declaredBookingChannels : List BookingChannel :=
  [.phone, .web_chat, .whatsapp]

/-- `BookingLogEntry` (`src/types.ts:47-53`). -/
structure BookingLogEntry where
  timestamp : String
  channel : String
  action : String
  message : String
  success : Bool
deriving DecidableEq

/-- `BookingResult` (`src/types.ts:38-45`).  The `channel` field is typed with
the four runtime channels; see `declaredBookingChannels` for the narrower
declared type. -/
structure BookingResult where
  status : BookingStatus
  channel : BookingChannel
  scheduledStartISO : Option String
  notes : String
  log : List BookingLogEntry
  confirmationNumber : Option String
deriving DecidableEq

/-- `SimulationConfig` (`src/types.ts:55-62`); success rates in percent. -/
structure SimulationConfig where
  fastDemo : Bool
  randomSeed : Option Nat
  outreachSuccessRate : Nat
  bookingSuccessRate : Nat
  maxAttempts : Nat
  delayRange : Nat × Nat
deriving DecidableEq

/-- `DEFAULT_CONFIG` (`src/utils/simulator.ts:3-10`): rates `0.8`/`0.85`
appear as `80`/`85` percent. -/
def DEFAULT_CONFIG : SimulationConfig :=
  { fastDemo := true
    randomSeed := none
    outreachSuccessRate := 80
    bookingSuccessRate := 85
    maxAttempts := 3
    delayRange := (500, 2000) }

/-! ## Category/urgency classifier (`src/utils/googleMaps.ts:35-117`)

`analyzeProblem` is an `async` function whose only effect is a fixed
processing delay; its value is a pure function of the transcript, embedded
here directly (so it is total — it cannot throw). -/

/-- Insertion order of the keys of the `CATEGORY_KEYWORDS` object literal
(`src/utils/googleMaps.ts:35-43`); `Object.entries` enumerates string keys in
this order. -/
def CATS : List Category :=
  [.hvac, .plumber, .electrician, .roofer, .appliance, .pest, .general]

/-- The `CATEGORY_KEYWORDS` table (`src/utils/googleMaps.ts:35-43`). -/
def categoryKeywords : Category → List String
  | .hvac =>
    ["heating", "cooling", "air conditioning", "a/c", "ac ", " ac", "ac broke",
     "furnace", "hvac", "thermostat", "vent", "duct", "ac unit", "heat pump"]
  | .plumber =>
    ["plumbing", "pipe", "leak", "faucet", "toilet", "drain", "water", "sink",
     "shower", "bath", "sewer"]
  | .electrician =>
    ["electrical", "electric", "outlet", "switch", "light", "power", "wire",
     "breaker", "fuse", "voltage"]
  | .roofer =>
    ["roof", "roofing", "shingle", "gutter", "leak", "attic", "chimney", "flashing"]
  | .appliance =>
    ["appliance", "refrigerator", "washer", "dryer", "dishwasher", "oven",
     "stove", "microwave"]
  | .pest =>
    ["pest", "bug", "insect", "rodent", "mouse", "rat", "ant", "roach",
     "termite", "exterminator"]
  | .general =>
    ["repair", "fix", "broken", "maintenance", "handyman", "contractor"]

/-- Insertion order of the keys of `URGENCY_KEYWORDS`
(`src/utils/googleMaps.ts:45-50`). -/
def URGENCY_LEVELS : List Urgency := [.emergency, .high, .medium, .low]

/-- The `URGENCY_KEYWORDS` table (`src/utils/googleMaps.ts:45-50`). -/
def urgencyKeywords : Urgency → List String
  | .emergency =>
    ["emergency", "urgent", "immediate", "asap", "flooding", "fire", "gas leak",
     "no power"]
  | .high => ["today", "quickly", "soon", "major", "serious", "broken", "not working"]
  | .medium => ["this week", "few days", "moderate", "annoying", "intermittent"]
  | .low => ["when convenient", "eventually", "minor", "cosmetic", "preventive"]

/-- The `symptomKeywords` list (`src/utils/googleMaps.ts:82`). -/
def SYMPTOM_KEYWORDS : List String :=
  ["leaking", "dripping", "broken", "not working", "making noise", "sparking",
   "clogged", "cracked"]

/-- `keywords.filter(keyword => lowerText.includes(keyword)).length`
(`src/utils/googleMaps.ts:63`). -/
def countHits (lowerText : String) (kws : List String) : Nat :=
  (kws.filter fun kw => containsSubstring lowerText kw).length

/-- The category-selection loop (`src/utils/googleMaps.ts:59-68`): running
`(category, maxMatches)` pair, starting at `('general', 0)`, updated only on a
strictly larger hit count. -/
def pickCategory (lowerText : String) : Category :=
  (CATS.foldl
    (fun acc c =>
      let m := countHits lowerText (categoryKeywords c)
      if m > acc.2 then (c, m) else acc)
    (Category.general, 0)).1

/-- The urgency-selection loop (`src/utils/googleMaps.ts:71-78`): first level
(in insertion order) with any keyword hit, default `'medium'`. -/
def pickUrgency (lowerText : String) : Urgency :=
  match URGENCY_LEVELS.find? (fun u =>
      (urgencyKeywords u).any fun kw => containsSubstring lowerText kw) with
  | some u => u
  | none => .medium

/-- Character class of the capture group `[A-Z0-9\-]+` under the `i` flag in
the model/serial regexes (`src/utils/googleMaps.ts:91-92`). -/
def isTokenChar (c : Char) : Bool :=
  ('A' ≤ c && c ≤ 'Z') || ('a' ≤ c && c ≤ 'z') || ('0' ≤ c && c ≤ '9') || c == '-'

/-- Case-insensitive prefix match of a (lowercase) keyword, returning the
remainder of the text on success. -/
def matchKeywordCI : List Char → List Char → Option (List Char)
  | [], cs => some cs
  | _ :: _, [] => none
  | k :: ks, c :: cs => if c.toLower == k then matchKeywordCI ks cs else none

/-- Attempt to match `kw\s*[#:]?\s*([A-Z0-9\-]+)` (case-insensitively) at the
head of `cs`, returning the capture.  No backtracking is needed for this
pattern: `#`/`:` and whitespace are not token characters, so the greedy reading
agrees with the regex engine. -/
def matchSerialAt (kw : List Char) (cs : List Char) : Option String :=
  match matchKeywordCI kw cs with
  | none => none
  | some rest =>
    let rest := rest.dropWhile Char.isWhitespace
    let rest :=
      match rest with
      | c :: t => if c == '#' || c == ':' then t else c :: t
      | [] => []
    let rest := rest.dropWhile Char.isWhitespace
    let tok := rest.takeWhile isTokenChar
    if tok.isEmpty then none else some ⟨tok⟩

/-- Scan for the first position at which the model/serial pattern matches
(JavaScript `transcript.match(/kw\s*[#:]?\s*([A-Z0-9\-]+)/i)` returning the
first capture). -/
def scanSerial (kw : List Char) (cs : List Char) : Option String :=
  match matchSerialAt kw cs with
  | some s => some s
  | none =>
    match cs with
    | [] => none
    | _ :: t => scanSerial kw t

/-- `modelMatch?.[1] || serialMatch?.[1]` (`src/utils/googleMaps.ts:91-93`);
the capture is never the empty string, so `||` reduces to first-some. -/
def extractModelSerial (transcript : String) : Option String :=
  match scanSerial "model".data transcript.data with
  | some m => some m
  | none => scanSerial "serial".data transcript.data

/-- `generateSummary` (`src/utils/googleMaps.ts:108-117`).  JavaScript splits
on *runs* of `[.!?]` and then keeps only pieces with non-blank trim; splitting
on the individual characters yields the same retained pieces, since the extra
pieces produced are empty.  The `category`/`symptoms` parameters are unused in
the source as well. -/
def generateSummary (transcript : String) (_category : Category)
    (_symptoms : List String) : String :=
  let isSep : Char → Bool := fun c => c == '.' || c == '!' || c == '?'
  let pieces := (List.splitOnP isSep transcript.data).map (fun cs => String.mk cs)
  let sentences := pieces.filter fun s => decide (s.trim.length > 0)
  let firstSentence : String :=
    match sentences.head? with
    | some s => s.trim
    | none => String.mk (transcript.data.take 100)
  if firstSentence.length > 150 then
    String.mk (firstSentence.data.take 147) ++ "..."
  else
    firstSentence ++ (if firstSentence.endsWith "." then "" else ".")

/-- `analyzeProblem` (`src/utils/googleMaps.ts:52-106`), minus the artificial
delay.  Total by construction: it returns a `ProblemSummary` for every
transcript and has no failure path. -/
def analyzeProblem (transcript : String) : ProblemSummary :=
  let lowerText := lowerStr transcript
  let category := pickCategory lowerText
  let urgency := pickUrgency lowerText
  let symptoms := SYMPTOM_KEYWORDS.filter fun s => containsSubstring lowerText s
  { transcript := transcript
    summary := generateSummary transcript category symptoms
    category := category
    urgency := urgency
    symptoms := symptoms
    modelSerial := extractModelSerial transcript }

/-! ## Booking simulator (`src/utils/apiClient.ts:139-355`)

Random draws, wall-clock readings, and exceptions raised by the host runtime
inside a channel attempt are supplied through a `BookingEnv`. -/

/-- The recorded non-deterministic inputs of one `simulateBooking` run.  Each
channel appears at most once in the channel list, so one draw per channel
suffices.  `exc ch = some e` means the host runtime raised exception `e`
during that channel's attempt (the source reserves a `try`/`catch` for this;
`simulateChannel` itself has no throw site). -/
structure BookingEnv where
  /-- The final-step `Math.random()` draw, in percent. -/
  roll : BookingChannel → Nat
  /-- Exception raised during the channel attempt, if any. -/
  exc : BookingChannel → Option String
  /-- The random suffix of `generateConfirmationNumber`
  (`Math.random().toString(36).substr(2, 6).toUpperCase()`). -/
  confSuffix : BookingChannel → String
  /-- Wall-clock reading for the `i`-th log entry of a channel attempt. -/
  time : BookingChannel → Nat → String

/-- `PHONE_SCRIPTS` / `WEB_CHAT_MESSAGES` / `WHATSAPP_MESSAGES`
(`src/utils/apiClient.ts:139-159`) and the local `SMS_MESSAGES`
(`src/utils/apiClient.ts:193-198`). -/
def channelScripts : BookingChannel → List String
  | .phone =>
    ["Calling {vendor}... Connected! Confirming availability for {problem}.",
     "Speaking with receptionist... Checking schedule for {eta}.",
     "Confirming appointment details... Getting confirmation number.",
     "Appointment confirmed! Booking reference: {confirmationNumber}"]
  | .web_chat =>
    ["Initiating chat on {vendor} website...",
     "Chat agent connected. Explaining: {problem}",
     "Agent checking availability for {eta}...",
     "Securing appointment slot... Processing booking.",
     "Booking confirmed through web chat!"]
  | .whatsapp =>
    ["Sending WhatsApp message to {vendor}...",
     "Message delivered. Explaining service need: {problem}",
     "Vendor responding... Confirming {eta} availability.",
     "Appointment details confirmed via WhatsApp."]
  | .sms =>
    ["Sending SMS to {vendor}...",
     "Message sent. Explaining: {problem}",
     "Awaiting confirmation for {eta} via SMS...",
     "Appointment confirmed via SMS."]

/-- `channelName` (`src/utils/apiClient.ts:205-207`). -/
def channelName : BookingChannel → String
  | .phone => "Phone Call"
  | .web_chat => "Website Chat"
  | .whatsapp => "WhatsApp"
  | .sms => "SMS"

/-- The string key of a channel, as stored in `BookingLogEntry.channel`. -/
def channelKey : BookingChannel → String
  | .phone => "phone"
  | .web_chat => "web_chat"
  | .whatsapp => "whatsapp"
  | .sms => "sms"

/-- The per-channel failure reasons (`src/utils/apiClient.ts:234-237`). -/
def failureReason : BookingChannel → String
  | .phone => "Line busy, no answer after 3 attempts"
  | .web_chat => "Chat unavailable, no agents online"
  | .whatsapp => "No response to WhatsApp messages"
  | .sms => "No response to SMS"

/-- The success-rate determination (`src/utils/apiClient.ts:210-213`), in
percent: `0.85` nominal, lowered to `0.10` for a channel whose capability flag
the vendor lacks. -/
def channelSuccessRate (ch : BookingChannel) (v : VendorData) : Nat :=
  let r := 85
  let r := if ch = .web_chat ∧ ¬ v.hasWebChat then 10 else r
  let r := if ch = .whatsapp ∧ ¬ v.hasWhatsApp then 10 else r
  let r := if ch = .sms ∧ ¬ v.hasSms then 10 else r
  r

/-- The script placeholder substitution (`src/utils/apiClient.ts:218-222`).
JavaScript `vendor.eta || 'requested time'` also falls back on an empty `eta`
string. -/
def renderScript (s : String) (v : VendorData) (ps : ProblemSummary)
    (confirmationNumber : String) : String :=
  let etaText :=
    match v.eta with
    | some e => if e = "" then "requested time" else e
    | none => "requested time"
  replaceFirst (replaceFirst (replaceFirst (replaceFirst s
    "{vendor}" v.name) "{problem}" ps.summary) "{eta}" etaText)
    "{confirmationNumber}" confirmationNumber

/-- Result record of `simulateChannel` (`src/utils/apiClient.ts:191`). -/
structure ChannelResult where
  success : Bool
  scheduledTime : Option String
  notes : String
  confirmationNumber : Option String
deriving DecidableEq

/-- Rendering of a JavaScript `Date` at the granularity
`generateAppointmentTime` produces: a day offset from now and an hour slot,
printed as a fixed-format (always non-empty) stand-in for `toISOString()`. -/
def simDateISO (dayOffset hour : Nat) : String :=
  "now+" ++ toString dayOffset ++ "dT" ++ toString hour ++ ":00:00.000Z"

/-- `generateAppointmentTime` (`src/utils/apiClient.ts:257-299`): keyword
parse of the free-text ETA into a concrete (day offset, hour) slot. -/
def generateAppointmentTime (eta : Option String) : String :=
  match eta with
  | none => simDateISO 1 10
  | some e =>
    if containsSubstring (lowerStr e) "today" then
      if containsSubstring e "2-4" || containsSubstring e "2:00-4:00" then
        simDateISO 0 14
      else if containsSubstring e "3-5" || containsSubstring e "3:00-5:00" then
        simDateISO 0 15
      else simDateISO 0 13
    else if containsSubstring (lowerStr e) "tomorrow" then
      if containsSubstring e "9-11" || containsSubstring e "9:00-11:00" then
        simDateISO 1 9
      else if containsSubstring e "2-4" || containsSubstring e "2:00-4:00" then
        simDateISO 1 14
      else simDateISO 1 10
    else simDateISO 2 10

/-- `simulateChannel` (`src/utils/apiClient.ts:184-255`): the scripted
dialogue.  Every step logs an entry; each non-final step logs `success: true`,
the final step logs the success roll.  On a failed final roll the source
returns from inside the loop *after* logging that step, so the produced log is
the same in both cases except for the final entry's `success` flag. -/
def simulateChannel (env : BookingEnv) (ch : BookingChannel) (v : VendorData)
    (ps : ProblemSummary) : ChannelResult × List BookingLogEntry :=
  let scripts := channelScripts ch
  let confirmationNumber := "GSP-" ++ env.confSuffix ch
  let finalSuccess := decide (env.roll ch < channelSuccessRate ch v)
  let entries := (List.range scripts.length).map fun i =>
    { timestamp := env.time ch i
      channel := channelKey ch
      action := "step_" ++ toString (i + 1)
      message := renderScript (scripts.getD i "") v ps confirmationNumber
      success := if i = scripts.length - 1 then finalSuccess else true
      : BookingLogEntry }
  if finalSuccess then
    ({ success := true
       scheduledTime := some (generateAppointmentTime v.eta)
       notes := "Successfully booked via " ++ channelName ch ++
         ". Please be available 15 minutes before the scheduled time."
       confirmationNumber := some confirmationNumber }, entries)
  else
    ({ success := false
       scheduledTime := none
       notes := channelName ch ++ " booking failed: " ++ failureReason ch
       confirmationNumber := none }, entries)

/-- The booking channel priority list (`src/utils/apiClient.ts:310-313`):
`phone` unconditionally, then `web_chat`, `whatsapp`, `sms`, each pushed only
when the vendor's capability flag is set. -/
def bookingChannels (v : VendorData) : List BookingChannel :=
  [BookingChannel.phone]
    ++ (if v.hasWebChat then [BookingChannel.web_chat] else [])
    ++ (if v.hasWhatsApp then [BookingChannel.whatsapp] else [])
    ++ (if v.hasSms then [BookingChannel.sms] else [])

/-- The `catch` branch of `simulateBooking` (`src/utils/apiClient.ts:343-345`):
`addLogEntry(log, channel, 'error', `Booking attempt failed: ${error}`, false, ...)`. -/
def errorLogEntry (env : BookingEnv) (ch : BookingChannel) (e : String) :
    BookingLogEntry :=
  { timestamp := env.time ch 0
    channel := channelKey ch
    action := "error"
    message := "Booking attempt failed: " ++ e
    success := false }

/-- The fixed fallback notes of a fully failed booking
(`src/utils/apiClient.ts:352`). -/
def FALLBACK_NOTES : String :=
  "Unable to complete automatic booking. Please call the vendor directly to schedule your appointment."

/-- The channel loop of `simulateBooking` (`src/utils/apiClient.ts:315-354`),
with the accumulated log made explicit.  When a channel attempt raises an
exception the attempt's effect on the log is the single `error` entry (the
partial step entries a mid-attempt throw may have left behind are not modelled;
no claim refers to them).  The exhausted branch reports `channels[0]` of the
original list. -/
def bookingGo (env : BookingEnv) (v : VendorData) (ps : ProblemSummary) :
    List BookingChannel → List BookingLogEntry → BookingResult
  | [], log =>
    { status := .failed
      channel := (bookingChannels v).headD .phone
      scheduledStartISO := none
      notes := FALLBACK_NOTES
      log := log
      confirmationNumber := none }
  | ch :: rest, log =>
    match env.exc ch with
    | some e => bookingGo env v ps rest (log ++ [errorLogEntry env ch e])
    | none =>
      let r := simulateChannel env ch v ps
      if r.1.success then
        { status := .confirmed
          channel := ch
          scheduledStartISO := r.1.scheduledTime
          notes := r.1.notes
          log := log ++ r.2
          confirmationNumber := r.1.confirmationNumber }
      else bookingGo env v ps rest (log ++ r.2)

/-- `simulateBooking` (`src/utils/apiClient.ts:301-355`). -/
def simulateBooking (env : BookingEnv) (v : VendorData) (ps : ProblemSummary) :
    BookingResult :=
  bookingGo env v ps (bookingChannels v) []

/-! ## Outreach simulator (`src/utils/simulator.ts:12-104`) -/

/-- The recorded non-deterministic inputs of one `simulateOutreach` run,
indexed by the 0-based round number. -/
structure OutreachEnv where
  /-- The success `Math.random()` draw of a round, in percent. -/
  roll : Nat → Nat
  /-- The `Math.random()` draw selecting an `ETA_PATTERNS` entry; the source
  computes `Math.floor(r * ETA_PATTERNS.length)`, modelled as this draw taken
  modulo the table length (same support of indices). -/
  pick : Nat → Nat
  /-- Wall-clock reading at the start of a round. -/
  time : Nat → String

/-- `CHANNELS` (`src/utils/simulator.ts:12`). -/
def CHANNELS : List OutreachChannel := [.sms, .whatsapp, .phone, .email]

/-- `OUTREACH_MESSAGES` (`src/utils/simulator.ts:14-19`). -/
def OUTREACH_MESSAGES : OutreachChannel → String
  | .sms =>
    "Hi! We have a customer needing {category} service. Can you provide your earliest availability and service fee?"
  | .whatsapp =>
    "Hello! Gaspar here - we have a homeowner with a {category} issue. What's your earliest availability?"
  | .phone => "Calling to check availability for a {category} service call..."
  | .email =>
    "Service inquiry: Customer needs {category} assistance. Please respond with availability and pricing."

/-- `ETA_PATTERNS` (`src/utils/simulator.ts:30-37`): (eta, fee) pairs. -/
def ETA_PATTERNS : List (String × Nat) :=
  [("Today 2-4 PM", 120),
   ("Tomorrow 9-11 AM", 95),
   ("Tomorrow 2-4 PM", 100),
   ("Thursday 10 AM-12 PM", 85),
   ("Friday 1-3 PM", 95),
   ("This afternoon 3-5 PM", 110)]

/-- One observed assignment to the status of a round's `attemptLog` entry; the
source mutates the pushed entry in place (lines 64, 74, 84, 95 of
`src/utils/simulator.ts`) and invokes the update callback after each
assignment. -/
structure OutreachEvent where
  round : Nat
  channel : OutreachChannel
  status : AttemptStatus
deriving DecidableEq

/-- The success roll of round `k` (`src/utils/simulator.ts:78`):
`Math.random() < outreachSuccessRate`. -/
def outreachSuccess (env : OutreachEnv) (cfg : SimulationConfig) (k : Nat) : Bool :=
  decide (env.roll k < cfg.outreachSuccessRate)

/-- The ETA pattern drawn in round `k` (`src/utils/simulator.ts:83`). -/
def roundPattern (env : OutreachEnv) (k : Nat) : String × Nat :=
  ETA_PATTERNS.getD (env.pick k % ETA_PATTERNS.length) ("", 0)

/-- The attempt loop of `simulateOutreach` (`src/utils/simulator.ts:51-98`)
with the remaining fuel `maxAttempts - attempt` made the structural argument.
Each executed round appends one `OutreachAttempt` (in its final status) to the
vendor's log and emits the three status events of that entry; a successful
roll sets `eta`/`serviceFee`/`outreachStatus := completed` and stops, a failed
roll recurses, and exhausted fuel sets `outreachStatus := failed`
(`src/utils/simulator.ts:100-103`). -/
def outreachLoop (env : OutreachEnv) (cfg : SimulationConfig) (cat : String) :
    Nat → Nat → VendorData → VendorData × List OutreachEvent
  | 0, _, v => ({ v with outreachStatus := .failed }, [])
  | fuel + 1, attempt, v =>
    let channel := CHANNELS.getD (attempt % CHANNELS.length) .sms
    let message := replaceFirst (OUTREACH_MESSAGES channel) "{category}" cat
    let timestamp := env.time attempt
    if outreachSuccess env cfg attempt then
      let rp := roundPattern env attempt
      let entry : OutreachAttempt :=
        { channel := channel
          timestamp := timestamp
          status := .replied
          message := some message
          response := some ("Available: " ++ rp.1 ++ " - $" ++ toString rp.2 ++
            " service fee") }
      ({ v with
          outreachLog := v.outreachLog ++ [entry]
          eta := some rp.1
          serviceFee := some rp.2
          outreachStatus := .completed },
       [⟨attempt, channel, .sent⟩, ⟨attempt, channel, .delivered⟩,
        ⟨attempt, channel, .replied⟩])
    else
      let entry : OutreachAttempt :=
        { channel := channel
          timestamp := timestamp
          status := .failed
          message := some message
          response := none }
      let next := outreachLoop env cfg cat fuel (attempt + 1)
        { v with outreachLog := v.outreachLog ++ [entry] }
      (next.1,
       ⟨attempt, channel, .sent⟩ :: ⟨attempt, channel, .delivered⟩ ::
        ⟨attempt, channel, .failed⟩ :: next.2)

/-- `simulateOutreach` (`src/utils/simulator.ts:39-104`): marks the vendor
`in-progress` and runs up to `cfg.maxAttempts` rounds.  The caller-supplied
partial configuration merged over `DEFAULT_CONFIG` is modelled by passing the
merged configuration. -/
def simulateOutreach (env : OutreachEnv) (cfg : SimulationConfig)
    (ps : ProblemSummary) (v : VendorData) : VendorData × List OutreachEvent :=
  outreachLoop env cfg (categoryKey ps.category) cfg.maxAttempts 0
    { v with outreachStatus := .inProgress }

/-! ## Thumbtack mock vendors (`src/utils/thumbtackMock.ts`) -/

/-- The `categoryLabel` mapping (`src/utils/thumbtackMock.ts:9-16`). -/
def categoryLabel : Category → String
  | .hvac => "HVAC"
  | .plumber => "Plumbing"
  | .electrician => "Electrical"
  | .roofer => "Roofing"
  | .appliance => "Appliance"
  | .pest => "Pest Control"
  | .general => "General"

/-- `getThumbtackMockVendors` (`src/utils/thumbtackMock.ts:5-66`).  The three
random `distance` draws (floating point in the source) are supplied as `dist`
in tenths of a mile. -/
def getThumbtackMockVendors (category : Category) (zipCode : String)
    (dist : Nat → Nat) : List VendorData :=
  let label := categoryLabel category
  let cityNote := "Serves " ++ zipCode
  let base : VendorData :=
    { id := ""
      name := ""
      rating := 0
      reviewCount := 0
      phone := "N/A"
      website := none
      address := cityNote
      distance := 0
      category := label
      hasWebChat := false
      hasWhatsApp := true
      hasSms := true
      eta := none
      serviceFee := none
      outreachStatus := .pending
      outreachLog := []
      source := some .thumbtack }
  [{ base with
      id := "thumbtack-pro-1-" ++ zipCode
      name := label ++ " Pros of " ++ zipCode
      rating := 49
      reviewCount := 164
      distance := dist 0
      serviceFee := some 95 },
   { base with
      id := "thumbtack-pro-2-" ++ zipCode
      name := "Advance " ++ label ++ " Services"
      rating := 47
      reviewCount := 133
      distance := dist 1
      serviceFee := some 89 },
   { base with
      id := "thumbtack-pro-3-" ++ zipCode
      name := label ++ " Wizards"
      rating := 48
      reviewCount := 92
      distance := dist 2
      serviceFee := some 0 }]

/-! ## Concrete sample inputs (used by witnesses and counterexamples) -/

/-- A sample vendor supporting every booking channel. -/
def sampleVendorAllCaps : VendorData :=
  { id := "v1"
    name := "Acme Repair"
    rating := 45
    reviewCount := 10
    phone := "N/A"
    website := none
    address := "12 Main St"
    distance := 20
    category := "hvac"
    hasWebChat := true
    hasWhatsApp := true
    hasSms := true
    eta := some "Tomorrow 9-11 AM"
    serviceFee := some 95
    outreachStatus := .pending
    outreachLog := []
    source := some .google }

/-- A sample vendor with every optional capability flag off. -/
def sampleVendorNoCaps : VendorData :=
  { sampleVendorAllCaps with hasWebChat := false, hasWhatsApp := false, hasSms := false }

/-- A sample vendor supporting only web chat. -/
def sampleVendorWebChat : VendorData :=
  { sampleVendorAllCaps with hasWebChat := true, hasWhatsApp := false, hasSms := false }

/-- A sample problem summary. -/
def sampleProblem : ProblemSummary := analyzeProblem "My AC is broken and leaking"

/-- A booking environment in which every final-step roll succeeds. -/
def bookingEnvAllSucceed : BookingEnv :=
  { roll := fun _ => 0
    exc := fun _ => none
    confSuffix := fun _ => "ABC123"
    time := fun _ _ => "t" }

/-- A booking environment in which only the `sms` final-step roll succeeds. -/
def bookingEnvOnlySms : BookingEnv :=
  { bookingEnvAllSucceed with
      roll := fun ch => match ch with | .sms => 0 | _ => 99 }

/-- A booking environment in which the phone attempt raises an exception and
every roll fails. -/
def bookingEnvPhoneThrows : BookingEnv :=
  { bookingEnvAllSucceed with
      roll := fun _ => 99
      exc := fun ch => match ch with | .phone => some "boom" | _ => none }

/-- An outreach environment in which the first two rolls fail and the third
succeeds. -/
def outreachEnvThirdSucceeds : OutreachEnv :=
  { roll := fun k => if k < 2 then 99 else 0
    pick := fun _ => 1
    time := fun _ => "t" }

/-! ## Claim C2: booking channel priority list -/

/-- Capability gate of a booking channel (`phone` has none). -/
def bookingCapability (v : VendorData) : BookingChannel → Bool
  | .phone => true
  | .web_chat => v.hasWebChat
  | .whatsapp => v.hasWhatsApp
  | .sms => v.hasSms

/-- C2: `simulateBooking` builds its channel list as `phone` first and always
included, followed by `web_chat`, `whatsapp`, `sms` in that order, each
included exactly when the vendor's corresponding capability flag is set; with
all three flags off the list is just `[phone]`. -/
theorem bookingChannels_priority_C2 (v : VendorData) :
    bookingChannels v =
      .phone :: ([BookingChannel.web_chat, .whatsapp, .sms].filter (bookingCapability v)) ∧
    (bookingChannels v).headD .phone = .phone ∧
    (v.hasWebChat = false → v.hasWhatsApp = false → v.hasSms = false →
      bookingChannels v = [.phone]) := by
  cases h1 : v.hasWebChat <;> cases h2 : v.hasWhatsApp <;> cases h3 : v.hasSms <;>
    simp [bookingChannels, bookingCapability, h1, h2, h3, List.filter]

/-- Witness for C2 at a concrete capability-free vendor. -/
theorem bookingChannels_priority_C2_witness :
    bookingChannels sampleVendorNoCaps = [.phone] :=
  (bookingChannels_priority_C2 sampleVendorNoCaps).2.2 rfl rfl rfl

/-! ## Claim C7: the "My AC is broken and leaking" scenario -/

/-- C7 counterexample: on the transcript `"My AC is broken and leaking"` the
classifier does *not* return the default urgency `medium` — the transcript
contains the high-urgency keyword `"broken"`. -/
theorem analyzeProblem_ac_urgency_not_medium_C7 :
    ¬ (analyzeProblem "My AC is broken and leaking").urgency = .medium := by
  decide

/-- C7 (amended): the transcript `"My AC is broken and leaking"` is classified
with category `hvac` and urgency `high` (the keyword `"broken"` is in the
high-urgency list, so the `medium` default is not used). -/
theorem analyzeProblem_ac_scenario_C7 :
    (analyzeProblem "My AC is broken and leaking").category = .hvac ∧
    (analyzeProblem "My AC is broken and leaking").urgency = .high := by
  constructor <;> decide

/-! ## Claim C8: Thumbtack mock vendor ids -/

/-- C8 counterexample: the mock directory vendor ids do *not* depend on the
category label — two categories with different labels get identical id lists
for the same ZIP code. -/
theorem thumbtack_ids_ignore_category_C8 :
    ((getThumbtackMockVendors .hvac "94102" fun _ => 10).map fun x => x.id) =
      ((getThumbtackMockVendors .plumber "94102" fun _ => 10).map fun x => x.id) ∧
    categoryLabel .hvac ≠ categoryLabel .plumber := by
  constructor <;> decide

/-- C8 (amended): for every category, ZIP code and distance draw,
`getThumbtackMockVendors` returns exactly three mock directory vendor entries
whose ids are deterministic and derived from the ZIP code alone (the category
label appears in the vendor *name*, not in the id). -/
theorem thumbtack_three_vendors_C8 (category : Category) (zipCode : String)
    (dist : Nat → Nat) :
    (getThumbtackMockVendors category zipCode dist).length = 3 ∧
    ((getThumbtackMockVendors category zipCode dist).map fun x => x.id) =
      ["thumbtack-pro-1-" ++ zipCode, "thumbtack-pro-2-" ++ zipCode,
       "thumbtack-pro-3-" ++ zipCode] :=
  ⟨rfl, rfl⟩

/-! ## Claim C9: the booking result can escape the declared channel type -/

/-- C9: there is an input — a vendor with `hasSms = true` whose `phone`,
`web_chat` and `whatsapp` final-step rolls fail and whose `sms` roll succeeds
— on which `simulateBooking` returns a result whose `channel` is `sms`, a
value outside the set declared for `BookingResult.channel` in `src/types.ts`. -/
theorem simulateBooking_channel_escapes_declared_type_C9 :
    (simulateBooking bookingEnvOnlySms sampleVendorAllCaps sampleProblem).channel
        = .sms ∧
    BookingChannel.sms ∉ declaredBookingChannels := by
  constructor <;> decide

/-! ## Claims C3 and C5: booking result invariants -/

theorem simDateISO_ne_empty (d h : Nat) : simDateISO d h ≠ "" := by
  intro hEq
  have hlen := congrArg String.length hEq
  simp [simDateISO, String.length_append] at hlen
  exact absurd hlen.1.1.1.1 (by decide)

theorem generateAppointmentTime_ne_empty (eta : Option String) :
    generateAppointmentTime eta ≠ "" := by
  cases eta with
  | none => exact simDateISO_ne_empty 1 10
  | some e =>
    simp only [generateAppointmentTime]
    split_ifs <;> apply simDateISO_ne_empty

theorem confirmationNumber_ne_empty (s : String) : "GSP-" ++ s ≠ "" := by
  intro hEq
  have hlen := congrArg String.length hEq
  simp [String.length_append] at hlen
  exact absurd hlen.1 (by decide)

/-- The `success` flag of a channel attempt is exactly the final-step roll. -/
theorem simulateChannel_success_eq (env : BookingEnv) (ch : BookingChannel)
    (v : VendorData) (ps : ProblemSummary) :
    (simulateChannel env ch v ps).1.success =
      decide (env.roll ch < channelSuccessRate ch v) := by
  simp only [simulateChannel]
  split <;> simp_all

/-- On a successful final roll the channel result carries the generated
appointment time and the `GSP-`-prefixed confirmation number. -/
theorem simulateChannel_success_fields (env : BookingEnv) (ch : BookingChannel)
    (v : VendorData) (ps : ProblemSummary)
    (h : (simulateChannel env ch v ps).1.success = true) :
    (simulateChannel env ch v ps).1.scheduledTime =
        some (generateAppointmentTime v.eta) ∧
    (simulateChannel env ch v ps).1.confirmationNumber =
        some ("GSP-" ++ env.confSuffix ch) := by
  simp only [simulateChannel] at *
  split at h <;> simp_all

/-- Any `confirmed` result of the channel loop has both the appointment time
and the confirmation number set and non-empty. -/
theorem bookingGo_confirmed_fields (env : BookingEnv) (v : VendorData)
    (ps : ProblemSummary) (l : List BookingChannel) (log : List BookingLogEntry)
    (h : (bookingGo env v ps l log).status = .confirmed) :
    ∃ s c, (bookingGo env v ps l log).scheduledStartISO = some s ∧ s ≠ "" ∧
      (bookingGo env v ps l log).confirmationNumber = some c ∧ c ≠ "" := by
  induction l generalizing log with
  | nil => simp [bookingGo] at h
  | cons ch rest ih =>
    cases hexc : env.exc ch with
    | some e =>
      simp only [bookingGo, hexc] at h ⊢
      exact ih _ h
    | none =>
      simp only [bookingGo, hexc] at h ⊢
      by_cases hs : (simulateChannel env ch v ps).1.success = true
      · obtain ⟨h1, h2⟩ := simulateChannel_success_fields env ch v ps hs
        rw [if_pos hs] at h ⊢
        exact ⟨generateAppointmentTime v.eta, "GSP-" ++ env.confSuffix ch,
          h1, generateAppointmentTime_ne_empty v.eta, h2,
          confirmationNumber_ne_empty _⟩
      · rw [if_neg hs] at h ⊢
        exact ih _ h

/-- C3: whenever `simulateBooking` returns a result with status `confirmed`,
both `scheduledStartISO` and `confirmationNumber` are set and non-empty. -/
theorem simulateBooking_confirmed_C3 (env : BookingEnv) (v : VendorData)
    (ps : ProblemSummary)
    (h : (simulateBooking env v ps).status = .confirmed) :
    ∃ s c, (simulateBooking env v ps).scheduledStartISO = some s ∧ s ≠ "" ∧
      (simulateBooking env v ps).confirmationNumber = some c ∧ c ≠ "" :=
  bookingGo_confirmed_fields env v ps (bookingChannels v) [] h

/-- Witness for C3: a run in which every roll succeeds really does confirm. -/
theorem simulateBooking_confirmed_C3_witness :
    (simulateBooking bookingEnvAllSucceed sampleVendorAllCaps sampleProblem).status
        = .confirmed ∧
    ∃ s c,
      (simulateBooking bookingEnvAllSucceed sampleVendorAllCaps
          sampleProblem).scheduledStartISO = some s ∧ s ≠ "" ∧
      (simulateBooking bookingEnvAllSucceed sampleVendorAllCaps
          sampleProblem).confirmationNumber = some c ∧ c ≠ "" :=
  ⟨by decide, simulateBooking_confirmed_C3 _ _ _ (by decide)⟩

/-- The log entries contributed by one channel attempt: the single `error`
entry when the attempt raised, the scripted step entries otherwise. -/
def attemptLogOf (env : BookingEnv) (v : VendorData) (ps : ProblemSummary)
    (ch : BookingChannel) : List BookingLogEntry :=
  match env.exc ch with
  | some e => [errorLogEntry env ch e]
  | none => (simulateChannel env ch v ps).2

/-- If every channel of the remaining list either raises or fails its final
roll, the loop walks the whole list, accumulates every attempt's log entries,
and returns the fixed fallback result. -/
theorem bookingGo_exhausted (env : BookingEnv) (v : VendorData)
    (ps : ProblemSummary) (l : List BookingChannel) (log : List BookingLogEntry)
    (hall : ∀ ch ∈ l, env.exc ch = none →
      channelSuccessRate ch v ≤ env.roll ch) :
    bookingGo env v ps l log =
      { status := .failed
        channel := (bookingChannels v).headD .phone
        scheduledStartISO := none
        notes := FALLBACK_NOTES
        log := log ++ (l.map (attemptLogOf env v ps)).flatten
        confirmationNumber := none } := by
  induction l generalizing log with
  | nil => simp [bookingGo]
  | cons ch rest ih =>
    cases hexc : env.exc ch with
    | some e =>
      simp only [bookingGo, hexc]
      rw [ih _ fun c hc => hall c (List.mem_cons_of_mem ch hc)]
      simp [attemptLogOf, hexc]
    | none =>
      simp only [bookingGo, hexc]
      have hrate := hall ch (List.mem_cons_self ch rest) hexc
      have hs : ¬ ((simulateChannel env ch v ps).1.success = true) := by
        rw [simulateChannel_success_eq]
        simpa using Nat.not_lt.mpr hrate
      rw [if_neg hs]
      rw [ih _ fun c hc => hall c (List.mem_cons_of_mem ch hc)]
      simp [attemptLogOf, hexc]

/-- C5: when the final-step roll fails on every attempted channel (and any
exception counts as a failed attempt), `simulateBooking` returns — it never
throws — a `failed` result whose channel is the first attempted channel
(`channels[0]`, always `phone`) and whose notes are the fixed fallback string;
every exception raised inside a channel attempt shows up as a caught,
`success := false` log entry while the loop went on to the next channel. -/
theorem simulateBooking_exhaustion_C5 (env : BookingEnv) (v : VendorData)
    (ps : ProblemSummary)
    (hall : ∀ ch ∈ bookingChannels v, env.exc ch = none →
      channelSuccessRate ch v ≤ env.roll ch) :
    (simulateBooking env v ps).status = .failed ∧
    (simulateBooking env v ps).channel = (bookingChannels v).headD .phone ∧
    (simulateBooking env v ps).channel = .phone ∧
    (simulateBooking env v ps).notes = FALLBACK_NOTES ∧
    ∀ ch e, ch ∈ bookingChannels v → env.exc ch = some e →
      errorLogEntry env ch e ∈ (simulateBooking env v ps).log ∧
      (errorLogEntry env ch e).success = false := by
  have hmain := bookingGo_exhausted env v ps (bookingChannels v) [] hall
  rw [simulateBooking, hmain]
  refine ⟨rfl, rfl, by simp [bookingChannels], rfl, ?_⟩
  intro ch e hmem hexc
  refine ⟨?_, rfl⟩
  simp only [List.nil_append]
  exact List.mem_flatten.mpr ⟨[errorLogEntry env ch e],
    List.mem_map.mpr ⟨ch, hmem, by simp [attemptLogOf, hexc]⟩,
    List.mem_singleton.mpr rfl⟩

/-- Witness for C5: a vendor supporting phone and web chat, with the phone
attempt throwing and the web-chat roll failing. -/
theorem simulateBooking_exhaustion_C5_witness :
    (simulateBooking bookingEnvPhoneThrows sampleVendorWebChat
        sampleProblem).status = .failed ∧
    (simulateBooking bookingEnvPhoneThrows sampleVendorWebChat
        sampleProblem).channel = .phone :=
  ⟨(simulateBooking_exhaustion_C5 _ _ _ (by decide)).1,
   (simulateBooking_exhaustion_C5 _ _ _ (by decide)).2.2.1⟩

/-! ## Claims C1 and C4: outreach round structure and completion invariant -/

theorem etaPatterns_fst_ne_empty :
    ∀ j < ETA_PATTERNS.length, (ETA_PATTERNS.getD j ("", 0)).1 ≠ "" := by decide

theorem roundPattern_eta_ne_empty (env : OutreachEnv) (k : Nat) :
    (roundPattern env k).1 ≠ "" :=
  etaPatterns_fst_ne_empty _ (Nat.mod_lt _ (by decide))

/-- A `completed` outcome of the attempt loop always carries a non-empty `eta`
and a service fee drawn from the pattern table. -/
theorem outreachLoop_completed (env : OutreachEnv) (cfg : SimulationConfig)
    (cat : String) (fuel attempt : Nat) (v : VendorData)
    (h : (outreachLoop env cfg cat fuel attempt v).1.outreachStatus = .completed) :
    ∃ e f, (outreachLoop env cfg cat fuel attempt v).1.eta = some e ∧ e ≠ "" ∧
      (outreachLoop env cfg cat fuel attempt v).1.serviceFee = some f := by
  induction fuel generalizing attempt v with
  | zero => simp [outreachLoop] at h
  | succ fuel ih =>
    simp only [outreachLoop] at h ⊢
    by_cases hs : outreachSuccess env cfg attempt = true
    · rw [if_pos hs] at h ⊢
      exact ⟨(roundPattern env attempt).1, (roundPattern env attempt).2, rfl,
        roundPattern_eta_ne_empty env attempt, rfl⟩
    · rw [if_neg hs] at h ⊢
      exact ih _ _ h

/-- C4: whenever `simulateOutreach` ends with `outreachStatus = completed`,
the returned vendor has both `eta` (non-empty) and `serviceFee` set. -/
theorem simulateOutreach_completed_C4 (env : OutreachEnv)
    (cfg : SimulationConfig) (ps : ProblemSummary) (v : VendorData)
    (h : (simulateOutreach env cfg ps v).1.outreachStatus = .completed) :
    ∃ e f, (simulateOutreach env cfg ps v).1.eta = some e ∧ e ≠ "" ∧
      (simulateOutreach env cfg ps v).1.serviceFee = some f :=
  outreachLoop_completed env cfg (categoryKey ps.category) cfg.maxAttempts 0 _ h

/-- Witness for C4: two failed rounds followed by a successful third round. -/
theorem simulateOutreach_completed_C4_witness :
    (simulateOutreach outreachEnvThirdSucceeds DEFAULT_CONFIG sampleProblem
        sampleVendorAllCaps).1.outreachStatus = .completed ∧
    ∃ e f,
      (simulateOutreach outreachEnvThirdSucceeds DEFAULT_CONFIG sampleProblem
          sampleVendorAllCaps).1.eta = some e ∧ e ≠ "" ∧
      (simulateOutreach outreachEnvThirdSucceeds DEFAULT_CONFIG sampleProblem
          sampleVendorAllCaps).1.serviceFee = some f :=
  ⟨by decide, simulateOutreach_completed_C4 _ _ _ _ (by decide)⟩

/-- Number of rounds the attempt loop executes with `fuel` attempts left,
starting at round `attempt`: it stops after the first successful roll, or
after `fuel` rounds. -/
def numRoundsFuel (succ : Nat → Bool) : Nat → Nat → Nat
  | 0, _ => 0
  | fuel + 1, attempt =>
    if succ attempt then 1 else numRoundsFuel succ fuel (attempt + 1) + 1

/-- Whether any of the next `fuel` rounds starting at `attempt` rolls a
success. -/
def anySuccessFuel (succ : Nat → Bool) : Nat → Nat → Bool
  | 0, _ => false
  | fuel + 1, attempt => succ attempt || anySuccessFuel succ fuel (attempt + 1)

/-- The channel of round `k` (`src/utils/simulator.ts:52`):
`CHANNELS[attempt % CHANNELS.length]`. -/
def roundChannel (k : Nat) : OutreachChannel :=
  CHANNELS.getD (k % CHANNELS.length) .sms

/-- The log entry (in its final status) appended by round `k`. -/
def roundEntry (env : OutreachEnv) (cfg : SimulationConfig) (cat : String)
    (k : Nat) : OutreachAttempt :=
  let ch := roundChannel k
  let msg := replaceFirst (OUTREACH_MESSAGES ch) "{category}" cat
  if outreachSuccess env cfg k then
    { channel := ch
      timestamp := env.time k
      status := .replied
      message := some msg
      response := some ("Available: " ++ (roundPattern env k).1 ++ " - $" ++
        toString (roundPattern env k).2 ++ " service fee") }
  else
    { channel := ch
      timestamp := env.time k
      status := .failed
      message := some msg
      response := none }

/-- The three status assignments of round `k`'s attempt entry. -/
def roundEvents (env : OutreachEnv) (cfg : SimulationConfig) (k : Nat) :
    List OutreachEvent :=
  let ch := roundChannel k
  [⟨k, ch, .sent⟩, ⟨k, ch, .delivered⟩,
   ⟨k, ch, if outreachSuccess env cfg k then .replied else .failed⟩]

/-- Progress order on attempt statuses: `sent` before `delivered` before the
terminal `replied`/`failed`. -/
def statusRank : AttemptStatus → Nat
  | .sent => 0
  | .delivered => 1
  | .replied => 2
  | .failed => 2

theorem numRoundsFuel_le (succ : Nat → Bool) (fuel : Nat) :
    ∀ attempt, numRoundsFuel succ fuel attempt ≤ fuel := by
  induction fuel with
  | zero => intro attempt; simp [numRoundsFuel]
  | succ fuel ih =>
    intro attempt
    simp only [numRoundsFuel]
    split
    · omega
    · have := ih (attempt + 1); omega

theorem numRoundsFuel_pos (succ : Nat → Bool) (fuel attempt : Nat)
    (h : 0 < fuel) : 0 < numRoundsFuel succ fuel attempt := by
  cases fuel with
  | zero => omega
  | succ fuel => simp only [numRoundsFuel]; split <;> omega

theorem numRoundsFuel_early (succ : Nat → Bool) (fuel : Nat) :
    ∀ attempt j, j + 1 < numRoundsFuel succ fuel attempt →
      succ (attempt + j) = false := by
  induction fuel with
  | zero => intro attempt j h; simp [numRoundsFuel] at h
  | succ fuel ih =>
    intro attempt j h
    simp only [numRoundsFuel] at h
    by_cases hs : succ attempt = true
    · rw [if_pos hs] at h; omega
    · rw [if_neg hs] at h
      cases j with
      | zero => simpa using hs
      | succ j =>
        have : attempt + (j + 1) = (attempt + 1) + j := by omega
        rw [this]
        exact ih (attempt + 1) j (by omega)

theorem numRoundsFuel_last (succ : Nat → Bool) (fuel : Nat) :
    ∀ attempt, anySuccessFuel succ fuel attempt = true →
      succ (attempt + numRoundsFuel succ fuel attempt - 1) = true := by
  induction fuel with
  | zero => intro attempt h; simp [anySuccessFuel] at h
  | succ fuel ih =>
    intro attempt h
    simp only [anySuccessFuel, Bool.or_eq_true] at h
    simp only [numRoundsFuel]
    by_cases hs : succ attempt = true
    · rw [if_pos hs]; simpa using hs
    · rw [if_neg hs]
      have hrec : anySuccessFuel succ fuel (attempt + 1) = true := by
        rcases h with h | h
        · exact absurd h hs
        · exact h
      have hpos : 0 < numRoundsFuel succ fuel (attempt + 1) := by
        cases fuel with
        | zero => simp [anySuccessFuel] at hrec
        | succ fuel => exact numRoundsFuel_pos succ _ _ (by omega)
      have := ih (attempt + 1) hrec
      have heq : attempt + (numRoundsFuel succ fuel (attempt + 1) + 1) - 1 =
          attempt + 1 + numRoundsFuel succ fuel (attempt + 1) - 1 := by omega
      rw [heq]
      exact this

/-- The attempt loop appends exactly one entry per executed round, the entry
described by `roundEntry`. -/
theorem outreachLoop_log (env : OutreachEnv) (cfg : SimulationConfig)
    (cat : String) (fuel : Nat) :
    ∀ attempt v, (outreachLoop env cfg cat fuel attempt v).1.outreachLog =
      v.outreachLog ++
        (List.range' attempt
          (numRoundsFuel (outreachSuccess env cfg) fuel attempt)).map
          (roundEntry env cfg cat) := by
  induction fuel with
  | zero => intro attempt v; simp [outreachLoop, numRoundsFuel]
  | succ fuel ih =>
    intro attempt v
    simp only [outreachLoop, numRoundsFuel]
    by_cases hs : outreachSuccess env cfg attempt = true
    · rw [if_pos hs, if_pos hs]
      simp [roundEntry, roundChannel, hs]
    · rw [if_neg hs, if_neg hs]
      rw [ih (attempt + 1)]
      rw [List.range'_succ]
      simp [roundEntry, roundChannel, hs]

/-- The status events emitted by the attempt loop are exactly the
`sent`/`delivered`/terminal pattern of each executed round. -/
theorem outreachLoop_events (env : OutreachEnv) (cfg : SimulationConfig)
    (cat : String) (fuel : Nat) :
    ∀ attempt v, (outreachLoop env cfg cat fuel attempt v).2 =
      ((List.range' attempt
          (numRoundsFuel (outreachSuccess env cfg) fuel attempt)).map
          (roundEvents env cfg)).flatten := by
  induction fuel with
  | zero => intro attempt v; simp [outreachLoop, numRoundsFuel]
  | succ fuel ih =>
    intro attempt v
    simp only [outreachLoop, numRoundsFuel]
    by_cases hs : outreachSuccess env cfg attempt = true
    · rw [if_pos hs, if_pos hs]
      simp [roundEvents, roundChannel, hs]
    · rw [if_neg hs, if_neg hs]
      rw [ih (attempt + 1)]
      rw [List.range'_succ]
      simp [roundEvents, roundChannel, hs]

/-- The final outreach status is `completed` exactly when some executed round
succeeded, `failed` otherwise. -/
theorem outreachLoop_status (env : OutreachEnv) (cfg : SimulationConfig)
    (cat : String) (fuel : Nat) :
    ∀ attempt v, (outreachLoop env cfg cat fuel attempt v).1.outreachStatus =
      (if anySuccessFuel (outreachSuccess env cfg) fuel attempt then
        OutreachStatus.completed else .failed) := by
  induction fuel with
  | zero => intro attempt v; simp [outreachLoop, anySuccessFuel]
  | succ fuel ih =>
    intro attempt v
    simp only [outreachLoop, anySuccessFuel]
    by_cases hs : outreachSuccess env cfg attempt = true
    · rw [if_pos hs]
      simp [hs]
    · rw [if_neg hs]
      rw [ih (attempt + 1)]
      simp [hs]

/-- C1: `simulateOutreach` runs at most `maxAttempts` rounds (default 3);
round `k` uses `CHANNELS[k mod 4]` and appends exactly one attempt, whose
status passes strictly forward through `sent`, `delivered`, and then `replied`
(on a successful roll — in which case no later round runs and the final
`outreachStatus` is `completed`) or `failed` (after which the next round
starts); when every executed round fails, the final `outreachStatus` is
`failed`. -/
theorem simulateOutreach_rounds_C1 (env : OutreachEnv) (cfg : SimulationConfig)
    (ps : ProblemSummary) (v : VendorData) :
    DEFAULT_CONFIG.maxAttempts = 3 ∧
    numRoundsFuel (outreachSuccess env cfg) cfg.maxAttempts 0 ≤ cfg.maxAttempts ∧
    (simulateOutreach env cfg ps v).1.outreachLog =
      v.outreachLog ++
        (List.range' 0 (numRoundsFuel (outreachSuccess env cfg) cfg.maxAttempts 0)).map
          (roundEntry env cfg (categoryKey ps.category)) ∧
    (∀ k, (roundEntry env cfg (categoryKey ps.category) k).channel =
      CHANNELS.getD (k % CHANNELS.length) .sms) ∧
    (∀ k, (roundEntry env cfg (categoryKey ps.category) k).status =
      (if outreachSuccess env cfg k then AttemptStatus.replied else .failed)) ∧
    (simulateOutreach env cfg ps v).2 =
      ((List.range' 0 (numRoundsFuel (outreachSuccess env cfg) cfg.maxAttempts 0)).map
        (roundEvents env cfg)).flatten ∧
    (∀ k, (roundEvents env cfg k).map OutreachEvent.status =
      [.sent, .delivered,
       if outreachSuccess env cfg k then AttemptStatus.replied else .failed]) ∧
    (∀ k, List.Chain' (fun a b => statusRank a < statusRank b)
      ((roundEvents env cfg k).map OutreachEvent.status)) ∧
    (∀ j, j + 1 < numRoundsFuel (outreachSuccess env cfg) cfg.maxAttempts 0 →
      outreachSuccess env cfg j = false) ∧
    (anySuccessFuel (outreachSuccess env cfg) cfg.maxAttempts 0 = true →
      outreachSuccess env cfg
        (numRoundsFuel (outreachSuccess env cfg) cfg.maxAttempts 0 - 1) = true) ∧
    (simulateOutreach env cfg ps v).1.outreachStatus =
      (if anySuccessFuel (outreachSuccess env cfg) cfg.maxAttempts 0 then
        OutreachStatus.completed else .failed) := by
  refine ⟨rfl, numRoundsFuel_le _ _ _,
    outreachLoop_log env cfg (categoryKey ps.category) cfg.maxAttempts 0 _,
    ?_, ?_,
    outreachLoop_events env cfg (categoryKey ps.category) cfg.maxAttempts 0 _,
    fun k => rfl, ?_, ?_, ?_,
    outreachLoop_status env cfg (categoryKey ps.category) cfg.maxAttempts 0 _⟩
  · intro k
    cases h : outreachSuccess env cfg k <;> simp [roundEntry, roundChannel, h]
  · intro k
    cases h : outreachSuccess env cfg k <;> simp [roundEntry, roundChannel, h]
  · intro k
    cases h : outreachSuccess env cfg k <;>
      simp [roundEvents, roundChannel, h, statusRank]
  · intro j hj
    simpa using numRoundsFuel_early (outreachSuccess env cfg) cfg.maxAttempts 0 j hj
  · intro hany
    simpa using numRoundsFuel_last (outreachSuccess env cfg) cfg.maxAttempts 0 hany

/-- Witness for C1: with the first two rolls failing and the third succeeding,
the theorem's early-round and last-round clauses apply concretely. -/
theorem simulateOutreach_rounds_C1_witness :
    outreachSuccess outreachEnvThirdSucceeds DEFAULT_CONFIG 0 = false ∧
    outreachSuccess outreachEnvThirdSucceeds DEFAULT_CONFIG
      (numRoundsFuel (outreachSuccess outreachEnvThirdSucceeds DEFAULT_CONFIG)
        DEFAULT_CONFIG.maxAttempts 0 - 1) = true :=
  ⟨(simulateOutreach_rounds_C1 outreachEnvThirdSucceeds DEFAULT_CONFIG
      sampleProblem sampleVendorAllCaps).2.2.2.2.2.2.2.2.1 0 (by decide),
   (simulateOutreach_rounds_C1 outreachEnvThirdSucceeds DEFAULT_CONFIG
      sampleProblem sampleVendorAllCaps).2.2.2.2.2.2.2.2.2.1 (by decide)⟩

/-! ## Claim C6: category selection rule

The selection loop is an argmax-with-first-tie-wins fold; the two general
lemmas below characterise such a fold, and the claim instantiates them at the
category table. -/

/-- The maximum of `f` over a list (0 on the empty list). -/
def maxCount {α : Type} (f : α → Nat) (l : List α) : Nat :=
  l.foldr (fun x m => max (f x) m) 0

/-- If no element beats the accumulator's count, the argmax fold returns the
accumulator unchanged. -/
theorem foldl_argmax_no_update {α : Type} (f : α → Nat) :
    ∀ (l : List α) (acc : α × Nat), maxCount f l ≤ acc.2 →
      l.foldl (fun a c => if f c > a.2 then (c, f c) else a) acc = acc := by
  intro l
  induction l with
  | nil => intro acc _; rfl
  | cons x t ih =>
    intro acc h
    have hmax : max (f x) (maxCount f t) ≤ acc.2 := h
    have hx : f x ≤ acc.2 := le_trans (le_max_left _ _) hmax
    have ht : maxCount f t ≤ acc.2 := le_trans (le_max_right _ _) hmax
    simp only [List.foldl_cons]
    rw [if_neg (by omega)]
    exact ih acc ht

/-- If some element beats the accumulator's count, the argmax fold returns the
first element attaining the maximum count. -/
theorem foldl_argmax_update {α : Type} (f : α → Nat) :
    ∀ (l : List α) (acc : α × Nat), acc.2 < maxCount f l →
      ∃ y, l.find? (fun c => f c == maxCount f l) = some y ∧
        l.foldl (fun a c => if f c > a.2 then (c, f c) else a) acc = (y, f y) ∧
        f y = maxCount f l := by
  intro l
  induction l with
  | nil => intro acc h; simp [maxCount] at h
  | cons x t ih =>
    intro acc h
    have hcons : maxCount f (x :: t) = max (f x) (maxCount f t) := rfl
    by_cases hx : f x = maxCount f (x :: t)
    · refine ⟨x, ?_, ?_, hx⟩
      · rw [List.find?_cons_of_pos _ (by simp [hx])]
      · simp only [List.foldl_cons]
        rw [if_pos (by omega)]
        apply foldl_argmax_no_update
        have : maxCount f t ≤ max (f x) (maxCount f t) := le_max_right _ _
        simp only []
        omega
    · have hfx_le : f x ≤ maxCount f (x :: t) := hcons ▸ le_max_left _ _
      have hfx_lt : f x < maxCount f (x :: t) := lt_of_le_of_ne hfx_le hx
      have hMt : maxCount f (x :: t) = maxCount f t := by
        rcases le_total (f x) (maxCount f t) with hle | hle
        · rw [hcons, Nat.max_eq_right hle]
        · exact absurd (by rw [hcons, Nat.max_eq_left hle]) hx
      rw [hMt] at h hfx_lt ⊢
      have hbeq : ¬ ((f x == maxCount f t) = true) := by
        simp only [beq_iff_eq]
        omega
      simp only [List.foldl_cons]
      by_cases hgt : f x > acc.2
      · rw [if_pos hgt]
        obtain ⟨y, hf, hfd, hfy⟩ := ih (x, f x) (by simpa using hfx_lt)
        exact ⟨y, by rw [List.find?_cons_of_neg _ (by simpa using hbeq)]; exact hf,
          hfd, hfy⟩
      · rw [if_neg hgt]
        obtain ⟨y, hf, hfd, hfy⟩ := ih acc h
        exact ⟨y, by rw [List.find?_cons_of_neg _ (by simpa using hbeq)]; exact hf,
          hfd, hfy⟩

/-- The keyword hit count of one category against the lowercased transcript
(`src/utils/googleMaps.ts:63`). -/
def categoryHits (t : String) (c : Category) : Nat :=
  countHits (lowerStr t) (categoryKeywords c)

theorem mem_CATS (c : Category) : c ∈ CATS := by
  cases c <;> simp [CATS]

/-- C6: `analyzeProblem` chooses the category by counting keyword-substring
hits per category over the fixed table; the result is always one of the seven
enumerated categories (and the embedding is a total function — there is no
failure path); with no hits at all the default `general` is returned;
otherwise the chosen category is the *first* category, in table insertion
order, attaining the maximum hit count. -/
theorem analyzeProblem_category_rule_C6 (t : String) :
    (analyzeProblem t).category ∈ CATS ∧
    (maxCount (categoryHits t) CATS = 0 →
      (analyzeProblem t).category = .general) ∧
    (0 < maxCount (categoryHits t) CATS →
      CATS.find? (fun c => categoryHits t c == maxCount (categoryHits t) CATS) =
          some (analyzeProblem t).category ∧
      categoryHits t (analyzeProblem t).category =
        maxCount (categoryHits t) CATS) := by
  refine ⟨mem_CATS _, ?_, ?_⟩
  · intro hM
    have h := foldl_argmax_no_update (categoryHits t) CATS (Category.general, 0)
      (by omega)
    exact congrArg Prod.fst h
  · intro hM
    obtain ⟨y, hfind, hfold, hfy⟩ :=
      foldl_argmax_update (categoryHits t) CATS (Category.general, 0)
        (by simpa using hM)
    have hcat : (analyzeProblem t).category = y := congrArg Prod.fst hfold
    rw [hcat]
    exact ⟨hfind, hfy⟩

/-- Witness for C6 on the transcript `"leak"`: both `plumber` and `roofer`
score one hit; the first of them in table order, `plumber`, is chosen. -/
theorem analyzeProblem_category_rule_C6_witness :
    CATS.find?
        (fun c => categoryHits "leak" c == maxCount (categoryHits "leak") CATS) =
      some (analyzeProblem "leak").category ∧
    (analyzeProblem "leak").category = .plumber :=
  ⟨((analyzeProblem_category_rule_C6 "leak").2.2 (by decide)).1, by decide⟩

/-! ## Claim C10: the classifier stores the transcript unchanged -/

/-- C10: for every transcript, the `ProblemSummary` returned by
`analyzeProblem` carries the input string unchanged in its `transcript` field
(matching is done on a lowercased copy, which is never stored). -/
theorem analyzeProblem_transcript_unchanged_C10 (t : String) :
    (analyzeProblem t).transcript = t := rfl

end Gaspar
